import Mathlib

/-!
Shallow embedding of the AWS credential-resolution core of this repository:
the credential service (environment detection, strategy selection, production /
SSO / fallback credential resolution, validation, status reporting, profile
listing) and the three versions of the Bedrock provider's configuration
parser.  External SDK calls (provider chains, STS identity checks) are opaque
capabilities modelled as an explicit `World` of fallible functions; JavaScript
truthiness of optional string fields is modelled explicitly.
-/

namespace AwsCred

/-- JavaScript truthiness of an optional string field: `undefined` and the
empty string are falsy, every other string is truthy. -/
def truthy : Option String → Bool
  | none => false
  | some s => !(s == "")

/-- Conditional-spread helper: `...(x && { x })` keeps the key only when the
value is truthy. -/
def keepTruthy (o : Option String) : Option String :=
  if truthy o then o else none

/-- JavaScript `a || b` on optional strings: the left operand when truthy,
otherwise the right operand. -/
def jsOr (a b : Option String) : Option String :=
  if truthy a then a else b

/-- A JSON configuration object after `JSON.parse`, field values as the
provider parsers destructure them (absent key = `none`). -/
structure RawConfig where
  authType : Option String := none
  region : Option String := none
  profile : Option String := none
  ssoStartUrl : Option String := none
  ssoRegion : Option String := none
  ssoAccountId : Option String := none
  ssoRoleName : Option String := none
  accessKeyId : Option String := none
  secretAccessKey : Option String := none
  sessionToken : Option String := none
  deriving Repr, DecidableEq

/-- The `AWSBedRockConfig` record returned by the static-credential parser
versions (region plus conditionally spread optional credentials). -/
structure BedrockConfig where
  region : String
  accessKeyId : Option String := none
  secretAccessKey : Option String := none
  sessionToken : Option String := none
  deriving Repr, DecidableEq

def regionErr_v0 : String :=
  "Missing required AWS region. Configuration must include region."

def staticErr_v0 : String :=
  "When using explicit credentials, both accessKeyId and secretAccessKey are required."

/-- `_parseAndValidateConfig` of the first provider version (src/unnamed/part_000,
lines 67-96), applied to the already-JSON-parsed object: requires a truthy
region, then rejects a truthy `accessKeyId` or `secretAccessKey` without the
other, and returns the region with conditionally spread credential fields. -/
def parseAndValidateConfig_v0 (c : RawConfig) : Except String BedrockConfig :=
  if !truthy c.region then
    .error regionErr_v0
  else if (truthy c.accessKeyId || truthy c.secretAccessKey)
      && !(truthy c.accessKeyId && truthy c.secretAccessKey) then
    .error staticErr_v0
  else
    .ok { region := c.region.getD ""
          accessKeyId := keepTruthy c.accessKeyId
          secretAccessKey := keepTruthy c.secretAccessKey
          sessionToken := keepTruthy c.sessionToken }

def regionErr_v1 : String :=
  "Missing required region for AWS configuration."

def ssoErr_v1 : String :=
  "AWS SSO configuration must include either a profile name or SSO details (ssoStartUrl, ssoRegion)."

def legacyErr_v1 : String :=
  "Missing required AWS credentials. Configuration must include region, accessKeyId, and secretAccessKey."

/-- Result of the second provider version's parser: an SSO/auto configuration
or a legacy static-credential configuration. -/
inductive ParsedConfig_v1 where
  | ssoConfig (authType region : String)
      (profile ssoStartUrl ssoRegion ssoAccountId ssoRoleName : Option String)
  | staticConfig (region accessKeyId secretAccessKey : String) (sessionToken : Option String)
  deriving Repr, DecidableEq

/-- `_parseAndValidateConfig` of the second provider version
(src/unnamed/part_001, lines 80-135), applied to the already-JSON-parsed
object.  For `authType` of `sso` or `auto` it requires a truthy region, and
for strict `sso` additionally a truthy profile or truthy
`ssoStartUrl`/`ssoRegion`; otherwise the legacy branch requires region,
accessKeyId and secretAccessKey all truthy. -/
def parseAndValidateConfig_v1 (c : RawConfig) : Except String ParsedConfig_v1 :=
  if c.authType == some "sso" || c.authType == some "auto" then
    if !truthy c.region then
      .error regionErr_v1
    else if c.authType == some "sso" && !truthy c.profile
        && (!truthy c.ssoStartUrl || !truthy c.ssoRegion) then
      .error ssoErr_v1
    else
      .ok (.ssoConfig (c.authType.getD "") (c.region.getD "")
        c.profile c.ssoStartUrl c.ssoRegion c.ssoAccountId c.ssoRoleName)
  else
    if !truthy c.region || !truthy c.accessKeyId || !truthy c.secretAccessKey then
      .error legacyErr_v1
    else
      .ok (.staticConfig (c.region.getD "") (c.accessKeyId.getD "")
        (c.secretAccessKey.getD "") (keepTruthy c.sessionToken))

def regionErr_v2 : String :=
  "Missing AWS region. Provide it in AWS_BEDROCK_CONFIG or set AWS_BEDROCK_REGION."

/-- The caller-provided server environment map consulted by the third parser
version for its region fallback. -/
structure EnvMap where
  awsBedrockRegionVar : Option String := none
  awsRegionVar : Option String := none
  awsDefaultRegionVar : Option String := none
  deriving Repr, DecidableEq

/-- The environment-supplied region: `serverEnv.AWS_BEDROCK_REGION ||
serverEnv.AWS_REGION || serverEnv.AWS_DEFAULT_REGION`. -/
def envRegion (env : EnvMap) : Option String :=
  jsOr env.awsBedrockRegionVar (jsOr env.awsRegionVar env.awsDefaultRegionVar)

/-- `_parseAndValidateConfig` of the third provider version
(src/unnamed/part_002, lines 73-107), applied to the already-JSON-parsed
object plus the server environment map: region falls back through the three
environment region variables, and no credential-pair validation is done. -/
def parseAndValidateConfig_v2 (c : RawConfig) (env : EnvMap) : Except String BedrockConfig :=
  let region := jsOr c.region (envRegion env)
  if !truthy region then
    .error regionErr_v2
  else
    .ok { region := region.getD ""
          accessKeyId := keepTruthy c.accessKeyId
          secretAccessKey := keepTruthy c.secretAccessKey
          sessionToken := keepTruthy c.sessionToken }

/-- `EnvironmentInfo` from awsCredentialService.ts. -/
structure EnvironmentInfo where
  isContainer : Bool
  isECS : Bool
  isEKS : Bool
  hasAwsCli : Bool
  hasIamRole : Bool
  deriving Repr, DecidableEq

/-- `AWSCredentialConfig` from awsCredentialService.ts (region is the only
required field). -/
structure AWSCredentialConfig where
  authType : Option String := none
  region : String
  profile : Option String := none
  ssoStartUrl : Option String := none
  ssoRegion : Option String := none
  ssoAccountId : Option String := none
  ssoRoleName : Option String := none
  accessKeyId : Option String := none
  secretAccessKey : Option String := none
  sessionToken : Option String := none
  roleArn : Option String := none
  externalId : Option String := none
  deriving Repr, DecidableEq

/-- A credential object (`AwsCredentialIdentity`-shaped JS object) as returned
by the resolution strategies.  A `region` field is carried so that its absence
(`none`) on objects the service builds is expressible; every object literal in
the service omits the key. -/
structure ResolvedCredential where
  accessKeyId : Option String := none
  secretAccessKey : Option String := none
  sessionToken : Option String := none
  region : Option String := none
  deriving Repr, DecidableEq

/-- The identity returned by an STS `GetCallerIdentity` call. -/
structure CallerIdentity where
  account : Option String := none
  arn : Option String := none
  userId : Option String := none
  deriving Repr, DecidableEq

/-- The opaque external AWS SDK capabilities the service delegates to, with
their request parameters as the code passes them: the node provider chain
scoped to a region, the ini (profile) provider, the direct SSO provider, and
the STS `GetCallerIdentity` call for given credentials and region. -/
structure World where
  nodeProviderChain : String → Except String ResolvedCredential
  iniProvider : String → String → Except String ResolvedCredential
  ssoProvider : String → Option String → Option String → Option String → String →
    Except String ResolvedCredential
  stsGetCallerIdentity : ResolvedCredential → String → Except String CallerIdentity

/-- `validateCredentials` (awsCredentialService.ts lines 183-195): an STS
`GetCallerIdentity` test call whose failure is wrapped as a credential
validation failure. -/
def validateCredentials (w : World) (credentials : ResolvedCredential) (region : String) :
    Except String Unit :=
  match w.stsGetCallerIdentity credentials region with
  | .ok _ => .ok ()
  | .error e => .error ("Credential validation failed: " ++ e)

/-- `getProductionCredentials` (lines 111-127): obtain credentials from the
node provider chain scoped to `config.region`, then validate them; a
validation failure propagates as an error. -/
def getProductionCredentials (w : World) (config : AWSCredentialConfig) :
    Except String ResolvedCredential :=
  match w.nodeProviderChain config.region with
  | .error e => .error e
  | .ok credentials =>
    match validateCredentials w credentials config.region with
    | .error e => .error e
    | .ok _ => .ok credentials

def ssoDetailsErr : String := "SSO configuration requires either profile or SSO details"

/-- `getDevelopmentSSOCredentials` (lines 132-155): profile-based lookup when
a profile is set, direct SSO parameters when `ssoStartUrl` is set, otherwise
an error. -/
def getDevelopmentSSOCredentials (w : World) (config : AWSCredentialConfig) :
    Except String ResolvedCredential :=
  if truthy config.profile then
    w.iniProvider (config.profile.getD "") config.region
  else if truthy config.ssoStartUrl then
    w.ssoProvider (config.ssoStartUrl.getD "") config.ssoRegion
      config.ssoAccountId config.ssoRoleName config.region
  else
    .error ssoDetailsErr

/-- `getFallbackCredentials` (lines 160-178): return the static credentials
directly when both are truthy (the returned object literal has no `region`
key), otherwise delegate to the default node provider chain. -/
def getFallbackCredentials (w : World) (config : AWSCredentialConfig) :
    Except String ResolvedCredential :=
  if truthy config.accessKeyId && truthy config.secretAccessKey then
    .ok { accessKeyId := config.accessKeyId
          secretAccessKey := config.secretAccessKey
          sessionToken := config.sessionToken
          region := none }
  else
    w.nodeProviderChain config.region

/-- The three resolution strategies of `getCredentials`. -/
inductive Strategy where
  | platformRole
  | localSSO
  | fallback
  deriving Repr, DecidableEq

/-- The strategy-selection if-chain of `getCredentials` (lines 88-100):
container with ECS/EKS/IAM-role signal first, then CLI-plus-SSO, then
fallback. -/
def selectStrategy (env : EnvironmentInfo) (config : AWSCredentialConfig) : Strategy :=
  if env.isContainer && (env.isECS || env.isEKS || env.hasIamRole) then
    .platformRole
  else if env.hasAwsCli && config.authType == some "sso" then
    .localSSO
  else
    .fallback

/-- The body of `getCredentials` before its catch clause: run the selected
strategy. -/
def runStrategy (w : World) (env : EnvironmentInfo) (config : AWSCredentialConfig) :
    Except String ResolvedCredential :=
  match selectStrategy env config with
  | .platformRole => getProductionCredentials w config
  | .localSSO => getDevelopmentSSOCredentials w config
  | .fallback => getFallbackCredentials w config

def resolutionFailedMsg : String := "AWS credential resolution failed: "

/-- `getCredentials` (lines 85-106): run the selected strategy and wrap any
error with the resolution-failed message. -/
def getCredentials (w : World) (env : EnvironmentInfo) (config : AWSCredentialConfig) :
    Except String ResolvedCredential :=
  match runStrategy w env config with
  | .ok c => .ok c
  | .error e => .error (resolutionFailedMsg ++ e)

/-- The raw outcomes of the five environment probes (each probe catches its
own failures and yields a boolean). -/
structure ProbeResults where
  isContainer : Bool
  isECS : Bool
  isEKS : Bool
  hasAwsCli : Bool
  hasIamRole : Bool
  deriving Repr, DecidableEq

/-- The `EnvironmentInfo` assembled from freshly run probes. -/
def computeEnvironment (p : ProbeResults) : EnvironmentInfo :=
  { isContainer := p.isContainer
    isECS := p.isECS
    isEKS := p.isEKS
    hasAwsCli := p.hasAwsCli
    hasIamRole := p.hasIamRole }

/-- `detectEnvironment` (lines 59-80) with the instance's cache field
(`environmentInfo`, initially `none`) passed explicitly: return the cached
value when present, otherwise probe, cache, and return. -/
def detectEnvironment (p : ProbeResults) :
    Option EnvironmentInfo → EnvironmentInfo × Option EnvironmentInfo
  | some cached => (cached, some cached)
  | none => (computeEnvironment p, some (computeEnvironment p))

/-- The return shape of `checkCredentialStatus`. -/
structure CredentialStatus where
  available : Bool
  method : String
  identity : Option CallerIdentity := none
  errMsg : Option String := none
  deriving Repr, DecidableEq

/-- The method-classification if-chain of `checkCredentialStatus`
(lines 317-323). -/
def classifyMethod (env : EnvironmentInfo) (config : AWSCredentialConfig) : String :=
  if env.isECS then "ECS Task Role"
  else if env.isEKS then "EKS Service Account"
  else if env.hasIamRole then "EC2 Instance Profile"
  else if config.authType == some "sso" then "AWS SSO"
  else if truthy config.accessKeyId then "Static Credentials"
  else "Default Credential Chain"

/-- `checkCredentialStatus` (lines 299-341): resolve credentials, test them
with STS `GetCallerIdentity`, and classify the method; any failure is caught
and returned as `available = false` with the message in the error field. -/
def checkCredentialStatus (w : World) (env : EnvironmentInfo) (config : AWSCredentialConfig) :
    CredentialStatus :=
  match getCredentials w env config with
  | .error e => { available := false, method := "none", identity := none, errMsg := some e }
  | .ok credentials =>
    match w.stsGetCallerIdentity credentials config.region with
    | .error e => { available := false, method := "none", identity := none, errMsg := some e }
    | .ok identity =>
      { available := true
        method := classifyMethod env config
        identity := some identity
        errMsg := none }

/-- JavaScript `String.prototype.trim`, computed on the character list. -/
def jsTrim (s : String) : String :=
  ⟨((s.data.dropWhile Char.isWhitespace).reverse.dropWhile Char.isWhitespace).reverse⟩

/-- JavaScript `s.startsWith(p)`. -/
def jsStartsWith (s p : String) : Bool :=
  p.data.isPrefixOf s.data

/-- JavaScript `s.endsWith(p)`. -/
def jsEndsWith (s p : String) : Bool :=
  p.data.isSuffixOf s.data

/-- JavaScript `s.slice(n, -1)`: drop the first `n` characters and the last
one. -/
def jsSliceFromDropLast (n : Nat) (s : String) : String :=
  ⟨(s.data.drop n).dropLast⟩

/-- Split a character list at newline characters (`String.prototype.split`
with separator `'\n'`). -/
def splitLinesChars : List Char → List (List Char)
  | [] => [[]]
  | c :: rest =>
    if c = '\n' then [] :: splitLinesChars rest
    else
      match splitLinesChars rest with
      | [] => [[c]]
      | h :: t => (c :: h) :: t

/-- JavaScript `content.split('\n')`. -/
def jsSplitNewline (s : String) : List String :=
  (splitLinesChars s.data).map String.mk

/-- Per-line profile extraction of `AWSCredentialService.getAvailableProfiles`
(awsCredentialService.ts lines 363-371): a trimmed line starting with
`[default]` yields `default`; a trimmed line starting with `[profile ` yields
`trimmedLine.slice(9, -1).trim()` with no closing-bracket check. -/
def credProfileOfLine (line : String) : Option String :=
  let trimmedLine := jsTrim line
  if jsStartsWith trimmedLine "[default]" then some "default"
  else if jsStartsWith trimmedLine "[profile " then
    some (jsTrim (jsSliceFromDropLast 9 trimmedLine))
  else none

/-- `AWSCredentialService.getAvailableProfiles` (lines 346-378) applied to the
detected environment and the config-file content: empty in containers,
otherwise the per-line extraction over `content.split('\n')`. -/
def getAvailableProfilesCred (env : EnvironmentInfo) (content : String) : List String :=
  if env.isContainer then []
  else (jsSplitNewline content).filterMap credProfileOfLine

/-- Per-line profile extraction of `AWSSSOService.getAvailableProfiles`
(awsSsoService.ts lines 213-222): a trimmed line equal to `[default]` yields
`default`; a trimmed line starting with `[profile ` and ending with `]` yields
`trimmedLine.slice(9, -1)`. -/
def ssoProfileOfLine (line : String) : Option String :=
  let trimmedLine := jsTrim line
  if trimmedLine == "[default]" then some "default"
  else if jsStartsWith trimmedLine "[profile " && jsEndsWith trimmedLine "]" then
    some (jsSliceFromDropLast 9 trimmedLine)
  else none

/-- `AWSSSOService.getAvailableProfiles` (lines 201-229) applied to the
config-file content. -/
def getAvailableProfilesSso (content : String) : List String :=
  (jsSplitNewline content).filterMap ssoProfileOfLine

/-! Concrete environments, configurations and worlds used to instantiate the
theorems below. -/

/-- A container environment with the orchestrator-A signal set. -/
def envC1 : EnvironmentInfo :=
  { isContainer := true, isECS := true, isEKS := false, hasAwsCli := false, hasIamRole := false }

/-- A static-credential configuration with both keys supplied. -/
def cfgC1 : AWSCredentialConfig :=
  { authType := some "static", region := "us-east-1"
    accessKeyId := some "AKIA1", secretAccessKey := some "s1" }

/-- The platform-injected credential returned by the provider chain in the
C1 world. -/
def roleCred : ResolvedCredential :=
  { accessKeyId := some "ASIAROLE", secretAccessKey := some "rolesecret"
    sessionToken := some "roletoken" }

/-- A world whose provider chain yields the platform role credential and whose
identity check succeeds. -/
def wC1 : World :=
  { nodeProviderChain := fun _ => .ok roleCred
    iniProvider := fun _ _ => .error "ini unavailable"
    ssoProvider := fun _ _ _ _ _ => .error "sso unavailable"
    stsGetCallerIdentity := fun _ _ => .ok { account := some "123456789012" } }

/-- A container environment with the orchestrator-B signal set. -/
def envC2 : EnvironmentInfo :=
  { isContainer := true, isECS := false, isEKS := true, hasAwsCli := false, hasIamRole := false }

def cfgC2 : AWSCredentialConfig := { region := "us-east-1" }

/-- A world whose provider chain yields a credential but whose identity check
rejects it. -/
def wC2 : World :=
  { nodeProviderChain := fun _ => .ok roleCred
    iniProvider := fun _ _ => .error "ini unavailable"
    ssoProvider := fun _ _ _ _ _ => .error "sso unavailable"
    stsGetCallerIdentity := fun _ _ => .error "token expired" }

def envC3 : EnvironmentInfo :=
  { isContainer := false, isECS := false, isEKS := false, hasAwsCli := false, hasIamRole := false }

def cfgC3 : AWSCredentialConfig := { region := "us-east-1" }

/-- A world in which every external capability fails. -/
def wC3 : World :=
  { nodeProviderChain := fun _ => .error "chain down"
    iniProvider := fun _ _ => .error "ini down"
    ssoProvider := fun _ _ _ _ _ => .error "sso down"
    stsGetCallerIdentity := fun _ _ => .error "sts down" }

def envC4 : EnvironmentInfo :=
  { isContainer := false, isECS := false, isEKS := false, hasAwsCli := false, hasIamRole := false }

/-- The C4 scenario configuration. -/
def cfgC4 : AWSCredentialConfig :=
  { region := "us-east-1", accessKeyId := some "AKIA1", secretAccessKey := some "s1" }

/-- The credential object the fallback strategy builds for `cfgC4`: the static
keys, no session token, and no region key. -/
def credC4 : ResolvedCredential :=
  { accessKeyId := some "AKIA1", secretAccessKey := some "s1"
    sessionToken := none, region := none }

def wC4 : World :=
  { nodeProviderChain := fun _ => .error "chain down"
    iniProvider := fun _ _ => .error "ini down"
    ssoProvider := fun _ _ _ _ _ => .error "sso down"
    stsGetCallerIdentity := fun _ _ => .error "sts down" }

/-- A config with no region, no authType, and only `accessKeyId` set. -/
def cfgC5a : RawConfig := { accessKeyId := some "AKIA1" }

/-- A config with a region and an `accessKeyId` key set to the empty string. -/
def cfgC5b : RawConfig := { region := some "us-east-1", accessKeyId := some "" }

/-- A config with a region, no authType, and only `accessKeyId` non-empty. -/
def cfgC5w : RawConfig := { region := some "us-east-1", accessKeyId := some "AKIA1" }

/-- An sso-mode config with no region. -/
def cfgC6x : RawConfig := { authType := some "sso" }

/-- An sso-mode config with a region but no profile and no ssoStartUrl. -/
def cfgC6w : RawConfig := { authType := some "sso", region := some "us-west-2" }

def wC6 : World :=
  { nodeProviderChain := fun _ => .error "chain down"
    iniProvider := fun _ _ => .error "ini down"
    ssoProvider := fun _ _ _ _ _ => .error "sso down"
    stsGetCallerIdentity := fun _ _ => .error "sts down" }

/-- A resolver config in sso mode with neither profile nor ssoStartUrl. -/
def resCfgC6 : AWSCredentialConfig := { authType := some "sso", region := "us-west-2" }

/-- A raw config with no region field. -/
def cfgC7 : RawConfig := {}

/-- A server environment map supplying a region through its second variable. -/
def envC7 : EnvMap := { awsRegionVar := some "eu-west-1" }

/-- A developer (non-container) environment with the CLI available. -/
def envC9 : EnvironmentInfo :=
  { isContainer := false, isECS := false, isEKS := false, hasAwsCli := true, hasIamRole := false }

/-- A config carrying every credential-related field besides the region. -/
def cfgC10a : AWSCredentialConfig :=
  { authType := some "static", region := "us-east-1"
    profile := some "dev", ssoStartUrl := some "https://example.awsapps.com/start"
    ssoRegion := some "us-west-2", ssoAccountId := some "123456789012"
    ssoRoleName := some "Admin"
    accessKeyId := some "AKIA1", secretAccessKey := some "s1", sessionToken := some "tok" }

/-- A config with the same region and nothing else. -/
def cfgC10b : AWSCredentialConfig := { region := "us-east-1" }

def wC10 : World :=
  { nodeProviderChain := fun r => .ok { accessKeyId := some ("chain-" ++ r) }
    iniProvider := fun _ _ => .error "ini down"
    ssoProvider := fun _ _ _ _ _ => .error "sso down"
    stsGetCallerIdentity := fun _ _ => .ok { account := some "123456789012" } }

/-- C1: in any environment with `isContainer` and at least one of the
ECS/EKS/IAM-role signals, `getCredentials` selects the platform-role strategy
first for every configuration (including `authType=static` with both static
keys), and its result is exactly the wrapped result of
`getProductionCredentials` — the caller-supplied static credentials are not
returned directly. -/
theorem c1_platform_role_outranks_static (w : World) (env : EnvironmentInfo)
    (config : AWSCredentialConfig)
    (hC : env.isContainer = true)
    (hSig : (env.isECS || env.isEKS || env.hasIamRole) = true) :
    selectStrategy env config = .platformRole ∧
    getCredentials w env config =
      (match getProductionCredentials w config with
       | .ok c => .ok c
       | .error e => .error (resolutionFailedMsg ++ e)) := by
  have hs : selectStrategy env config = .platformRole := by
    unfold selectStrategy
    simp [hC, hSig]
  refine ⟨hs, ?_⟩
  unfold getCredentials runStrategy
  rw [hs]

/-- Witness for C1: a container/ECS environment with a static-credential
configuration; the platform-role strategy runs and the result is the
provider-chain role credential, not the static keys. -/
theorem c1_platform_role_outranks_static_witness :
    (selectStrategy envC1 cfgC1 = .platformRole ∧
      getCredentials wC1 envC1 cfgC1 =
        (match getProductionCredentials wC1 cfgC1 with
         | .ok c => .ok c
         | .error e => .error (resolutionFailedMsg ++ e))) ∧
    getCredentials wC1 envC1 cfgC1 = .ok roleCred :=
  ⟨c1_platform_role_outranks_static wC1 envC1 cfgC1 rfl rfl, rfl⟩

/-- C2: when the platform-role strategy is triggered, the provider chain
yields a credential, and the identity check on it fails, `getCredentials`
aborts with the wrapped credential-validation-failure error and returns no
credential from any strategy. -/
theorem c2_validation_failure_is_hard_error (w : World) (env : EnvironmentInfo)
    (config : AWSCredentialConfig) (cred : ResolvedCredential) (msg : String)
    (hC : env.isContainer = true)
    (hSig : (env.isECS || env.isEKS || env.hasIamRole) = true)
    (hChain : w.nodeProviderChain config.region = .ok cred)
    (hVal : w.stsGetCallerIdentity cred config.region = .error msg) :
    getCredentials w env config =
      .error (resolutionFailedMsg ++ ("Credential validation failed: " ++ msg)) ∧
    ∀ c, getCredentials w env config ≠ .ok c := by
  have hs : selectStrategy env config = .platformRole := by
    unfold selectStrategy
    simp [hC, hSig]
  have hmain : getCredentials w env config =
      .error (resolutionFailedMsg ++ ("Credential validation failed: " ++ msg)) := by
    unfold getCredentials runStrategy getProductionCredentials validateCredentials
    rw [hs]
    simp [hChain, hVal]
  refine ⟨hmain, fun c hc => ?_⟩
  rw [hmain] at hc
  exact Except.noConfusion hc

/-- Witness for C2: a container/EKS environment whose provider chain yields a
credential that the identity check rejects. -/
theorem c2_validation_failure_is_hard_error_witness :
    getCredentials wC2 envC2 cfgC2 =
      .error (resolutionFailedMsg ++ ("Credential validation failed: " ++ "token expired")) ∧
    ∀ c, getCredentials wC2 envC2 cfgC2 ≠ .ok c :=
  c2_validation_failure_is_hard_error wC2 envC2 cfgC2 roleCred "token expired" rfl rfl rfl rfl

/-- C4 counterexample: on a non-container environment, resolving
`{region: us-east-1, accessKeyId: AKIA1, secretAccessKey: s1}` returns the
static keys, but the returned credential object carries no region field
(`region = none`, not `us-east-1`) — the claim's expected
`ResolvedCredential` with `region:"us-east-1"` is not what the code builds. -/
theorem c4_counterexample :
    getCredentials wC4 envC4 cfgC4 = .ok credC4 ∧
    credC4.region = none ∧
    credC4.region ≠ some "us-east-1" :=
  ⟨rfl, rfl, by decide⟩

/-- C4 amended: on any environment with `isContainer = false` (the other
flags arbitrary) and any world, resolving `cfgC4` takes the fallback strategy
and returns `{accessKeyId: AKIA1, secretAccessKey: s1, sessionToken: none}`
with no region field on the credential value. -/
theorem c4_fallback_returns_static_without_region (w : World) (ecs eks cli iam : Bool) :
    selectStrategy
        { isContainer := false, isECS := ecs, isEKS := eks, hasAwsCli := cli, hasIamRole := iam }
        cfgC4 = .fallback ∧
    getCredentials w
        { isContainer := false, isECS := ecs, isEKS := eks, hasAwsCli := cli, hasIamRole := iam }
        cfgC4 = .ok credC4 := by
  have hs : selectStrategy
      { isContainer := false, isECS := ecs, isEKS := eks, hasAwsCli := cli, hasIamRole := iam }
      cfgC4 = .fallback := by
    unfold selectStrategy cfgC4
    simp
  refine ⟨hs, ?_⟩
  unfold getCredentials runStrategy
  rw [hs]
  rfl

/-- C8: two consecutive `detectEnvironment` calls on the same instance return
the same `EnvironmentInfo` and leave the cache unchanged, even when the
second call's underlying probes (`p2`) would yield different results than the
first call's (`p1`). -/
theorem c8_detect_idempotent (p1 p2 : ProbeResults) (s : Option EnvironmentInfo) :
    (detectEnvironment p2 (detectEnvironment p1 s).2).1 = (detectEnvironment p1 s).1 ∧
    (detectEnvironment p2 (detectEnvironment p1 s).2).2 = (detectEnvironment p1 s).2 := by
  cases s <;> exact ⟨rfl, rfl⟩

/-- C10: `getProductionCredentials` depends on the configuration only through
its region: any two configurations with equal regions produce identical
results against every world (same provider-chain request, same validation). -/
theorem c10_production_depends_only_on_region (w : World)
    (c1 c2 : AWSCredentialConfig) (h : c1.region = c2.region) :
    getProductionCredentials w c1 = getProductionCredentials w c2 := by
  unfold getProductionCredentials validateCredentials
  rw [h]

/-- Witness for C10: two configurations sharing a region but differing in
every credential-related field resolve identically. -/
theorem c10_production_depends_only_on_region_witness :
    getProductionCredentials wC10 cfgC10a = getProductionCredentials wC10 cfgC10b :=
  c10_production_depends_only_on_region wC10 cfgC10a cfgC10b rfl

/-- C3: `checkCredentialStatus` is total (its result is always either
available with no error or unavailable with an error message), and on any
failure of credential resolution or of the identity check it returns
`available = false` with that failure's message attached, rather than
propagating the exception. -/
theorem c3_status_reports_failures (w : World) (env : EnvironmentInfo)
    (config : AWSCredentialConfig) :
    ((checkCredentialStatus w env config).available = true ∧
        (checkCredentialStatus w env config).errMsg = none ∨
      (checkCredentialStatus w env config).available = false ∧
        (checkCredentialStatus w env config).errMsg ≠ none) ∧
    (∀ e, getCredentials w env config = .error e →
      checkCredentialStatus w env config =
        { available := false, method := "none", identity := none, errMsg := some e }) ∧
    (∀ cred e, getCredentials w env config = .ok cred →
      w.stsGetCallerIdentity cred config.region = .error e →
      checkCredentialStatus w env config =
        { available := false, method := "none", identity := none, errMsg := some e }) := by
  refine ⟨?_, ?_, ?_⟩
  · cases hg : getCredentials w env config with
    | error e =>
      right
      simp [checkCredentialStatus, hg]
    | ok cred =>
      cases hsts : w.stsGetCallerIdentity cred config.region with
      | error e =>
        right
        simp [checkCredentialStatus, hg, hsts]
      | ok i =>
        left
        simp [checkCredentialStatus, hg, hsts]
  · intro e he
    simp [checkCredentialStatus, he]
  · intro cred e hok hsts
    simp [checkCredentialStatus, hok, hsts]

/-- Witness for C3: a world where every external call fails; resolution fails
and the status carries the wrapped message with `available = false`. -/
theorem c3_status_reports_failures_witness :
    checkCredentialStatus wC3 envC3 cfgC3 =
      { available := false, method := "none", identity := none
        errMsg := some (resolutionFailedMsg ++ "chain down") } :=
  (c3_status_reports_failures wC3 envC3 cfgC3).2.1 (resolutionFailedMsg ++ "chain down") rfl

/-- C5 counterexample: two configurations with no `authType` and exactly one
of the two static-credential keys set for which `parse` does not fail with
the incomplete-static-credentials error: with no region the region error wins,
and with the set key being the empty string parsing succeeds outright. -/
theorem c5_counterexample :
    parseAndValidateConfig_v0 cfgC5a = .error regionErr_v0 ∧
    regionErr_v0 ≠ staticErr_v0 ∧
    parseAndValidateConfig_v0 cfgC5b =
      .ok { region := "us-east-1", accessKeyId := none
            secretAccessKey := none, sessionToken := none } :=
  ⟨rfl, by decide, rfl⟩

/-- C5 amended: for every configuration with no `authType`, a non-empty
region, and exactly one of `accessKeyId`/`secretAccessKey` non-empty (the
other absent or empty), the first parser fails with its both-keys-required
error and the second parser's legacy branch fails with its
missing-credentials error. -/
theorem c5_amended_incomplete_static (c : RawConfig)
    (hAuth : c.authType = none)
    (hReg : truthy c.region = true)
    (hOne : truthy c.accessKeyId ≠ truthy c.secretAccessKey) :
    parseAndValidateConfig_v0 c = .error staticErr_v0 ∧
    parseAndValidateConfig_v1 c = .error legacyErr_v1 := by
  constructor
  · unfold parseAndValidateConfig_v0
    cases ha : truthy c.accessKeyId <;> cases hb : truthy c.secretAccessKey <;>
      simp_all [hReg]
  · unfold parseAndValidateConfig_v1
    cases ha : truthy c.accessKeyId <;> cases hb : truthy c.secretAccessKey <;>
      simp_all [hAuth, hReg]

/-- Witness for C5 amended: region present, only `accessKeyId` non-empty. -/
theorem c5_amended_incomplete_static_witness :
    parseAndValidateConfig_v0 cfgC5w = .error staticErr_v0 ∧
    parseAndValidateConfig_v1 cfgC5w = .error legacyErr_v1 :=
  c5_amended_incomplete_static cfgC5w rfl rfl (by decide)

/-- C6 counterexample: a configuration with `authType=sso`, no profile and no
`ssoStartUrl` but also no region fails with the missing-region error, not the
incomplete-SSO-configuration error. -/
theorem c6_counterexample :
    parseAndValidateConfig_v1 cfgC6x = .error regionErr_v1 ∧
    regionErr_v1 ≠ ssoErr_v1 :=
  ⟨rfl, by decide⟩

/-- C6 amended: for every configuration with `authType=sso`, a non-empty
region, no non-empty profile and no non-empty `ssoStartUrl`, `parse` fails
with the incomplete-SSO-configuration error; and independently, for every
resolver configuration with no non-empty profile and no non-empty
`ssoStartUrl`, the local-SSO strategy fails with its own
requires-profile-or-SSO-details error against every world. -/
theorem c6_amended_incomplete_sso (c : RawConfig) (w : World)
    (config : AWSCredentialConfig)
    (hA : c.authType = some "sso")
    (hReg : truthy c.region = true)
    (hP : truthy c.profile = false)
    (hS : truthy c.ssoStartUrl = false)
    (hP2 : truthy config.profile = false)
    (hS2 : truthy config.ssoStartUrl = false) :
    parseAndValidateConfig_v1 c = .error ssoErr_v1 ∧
    getDevelopmentSSOCredentials w config = .error ssoDetailsErr := by
  constructor
  · unfold parseAndValidateConfig_v1
    simp [hA, hReg, hP, hS]
  · unfold getDevelopmentSSOCredentials
    simp [hP2, hS2]

/-- Witness for C6 amended: `{authType: sso, region: us-west-2}`. -/
theorem c6_amended_incomplete_sso_witness :
    parseAndValidateConfig_v1 cfgC6w = .error ssoErr_v1 ∧
    getDevelopmentSSOCredentials wC6 resCfgC6 = .error ssoDetailsErr :=
  c6_amended_incomplete_sso cfgC6w wC6 resCfgC6 rfl rfl rfl rfl rfl rfl

/-- C7: for a configuration whose region field is absent, `parse` succeeds
with the first non-empty environment-supplied region variable when one
exists; and in general it fails with the missing-region error exactly when
neither the configuration nor the environment map supplies a non-empty
region. -/
theorem c7_region_env_fallback (c : RawConfig) (env : EnvMap) :
    (∀ r, c.region = none → envRegion env = some r → r ≠ "" →
      parseAndValidateConfig_v2 c env =
        .ok { region := r
              accessKeyId := keepTruthy c.accessKeyId
              secretAccessKey := keepTruthy c.secretAccessKey
              sessionToken := keepTruthy c.sessionToken }) ∧
    (parseAndValidateConfig_v2 c env = .error regionErr_v2 ↔
      truthy c.region = false ∧ truthy (envRegion env) = false) := by
  constructor
  · intro r h0 h1 h2
    unfold parseAndValidateConfig_v2
    simp [jsOr, truthy, h0, h1, h2]
  · unfold parseAndValidateConfig_v2 jsOr
    cases htc : truthy c.region with
    | true => simp [htc]
    | false =>
      cases hte : truthy (envRegion env) with
      | true => simp [htc, hte]
      | false => simp [htc, hte]

/-- Witness for C7: an empty raw configuration with the region supplied by
the second environment variable. -/
theorem c7_region_env_fallback_witness :
    parseAndValidateConfig_v2 cfgC7 envC7 =
      .ok { region := "eu-west-1"
            accessKeyId := keepTruthy cfgC7.accessKeyId
            secretAccessKey := keepTruthy cfgC7.secretAccessKey
            sessionToken := keepTruthy cfgC7.sessionToken } :=
  (c7_region_env_fallback cfgC7 envC7).1 "eu-west-1" rfl rfl (by decide)

/-- C9 counterexample: on the single line `[profile abc` (a section header
missing its closing bracket), the credential service's profile reader does
not skip the malformed header: it emits the mangled name `ab` (the
`slice(9, -1)` drops the final character), while the SSO service's reader
skips it. -/
theorem c9_counterexample :
    getAvailableProfilesCred envC9 "[profile abc" = ["ab"] ∧
    getAvailableProfilesSso "[profile abc" = [] :=
  ⟨by decide, by decide⟩

/-- C9 amended: both profile readers are total and ignore non-header lines;
the SSO service's reader yields only `default` or names cut from lines whose
trimmed form starts with `[profile ` and ends with `]` (malformed headers are
skipped); the credential service's reader also yields only `default` or names
cut from lines whose trimmed form starts with `[profile `, but without a
closing-bracket check, so a header missing its closing bracket contributes a
name with its final character dropped instead of being skipped. -/
theorem c9_amended_profile_parsing :
    (∀ content p, p ∈ getAvailableProfilesSso content →
      p = "default" ∨ ∃ l, l ∈ jsSplitNewline content ∧
        jsStartsWith (jsTrim l) "[profile " = true ∧
        jsEndsWith (jsTrim l) "]" = true ∧
        p = jsSliceFromDropLast 9 (jsTrim l)) ∧
    (∀ env content p, p ∈ getAvailableProfilesCred env content →
      p = "default" ∨ ∃ l, l ∈ jsSplitNewline content ∧
        jsStartsWith (jsTrim l) "[profile " = true ∧
        p = jsTrim (jsSliceFromDropLast 9 (jsTrim l))) ∧
    getAvailableProfilesCred envC9 "[profile abc" = ["ab"] := by
  refine ⟨?_, ?_, by decide⟩
  · intro content p hp
    unfold getAvailableProfilesSso at hp
    rw [List.mem_filterMap] at hp
    obtain ⟨l, hl, hf⟩ := hp
    simp only [ssoProfileOfLine] at hf
    split at hf
    · left
      exact (Option.some.inj hf).symm
    · split at hf
      · right
        rename_i hcond
        rw [Bool.and_eq_true] at hcond
        refine ⟨l, hl, hcond.1, hcond.2, (Option.some.inj hf).symm⟩
      · exact Option.noConfusion hf
  · intro env content p hp
    unfold getAvailableProfilesCred at hp
    split at hp
    · simp at hp
    · rw [List.mem_filterMap] at hp
      obtain ⟨l, hl, hf⟩ := hp
      simp only [credProfileOfLine] at hf
      split at hf
      · left
        exact (Option.some.inj hf).symm
      · split at hf
        · right
          rename_i hcond
          exact ⟨l, hl, hcond, (Option.some.inj hf).symm⟩
        · exact Option.noConfusion hf

/-- Witness for C9 amended: the line `[default]` yields the profile name
`default` through the SSO service's reader. -/
theorem c9_amended_profile_parsing_witness :
    "default" = "default" ∨ ∃ l, l ∈ jsSplitNewline "[default]" ∧
      jsStartsWith (jsTrim l) "[profile " = true ∧
      jsEndsWith (jsTrim l) "]" = true ∧
      "default" = jsSliceFromDropLast 9 (jsTrim l) :=
  c9_amended_profile_parsing.1 "[default]" "default" (by decide)

end AwsCred
